import Mathlib

/-!
Verification of the resilient HTTP retrieval component of
`ftb-modpack-downloader` (`utils.py`): the `Request` class
(`make_get_request`, `handle_get_request`) and the `safe_print` helper.

The embedding models one physical network attempt by the outcome the
`requests` library produces for it (`NetResult`), and a whole retry
session by the function from attempt index to that outcome
(`net : Nat → NetResult`).  A response object is represented by its
status code; an attempt that raises a Python exception which escapes
`make_get_request` is modelled by an explicit fault value.
-/

namespace FtbDownloader

/-- `self.retry_status = [500, 503, 504]` (utils.py, `Request.__init__`). -/
def retry_status : List Nat := [500, 503, 504]

/-- `self.retry_max = 3` (utils.py, `Request.__init__`). -/
def retry_max : Nat := 3

/-- `self.retry_sleep = 2.5` seconds (utils.py, `Request.__init__`). -/
def retry_sleep : ℚ := 5 / 2

/-- `self.timeout = 10` seconds (utils.py, `Request.__init__`). -/
def request_timeout : Nat := 10

/-- `requests.codes.ok = 200`. -/
def codes_ok : Nat := 200

/-- What the `requests.get` call of one physical attempt does:
either it returns a response object carrying `status`, or it raises one of
the exception classes distinguished by `make_get_request`'s handlers. -/
inductive NetResult
  | response (status : Nat)
  | timeout
  | connectionError
  | tooManyRedirects
  | sslError
  | otherError
deriving DecidableEq

/-- An `UnboundLocalError` escaping `make_get_request`, tagged by the first
place that reads the unbound local `response`.  (For `connectionError` the
`finally` block re-faults on the same unbound local while the handler's
exception propagates; the observable escaping error is an
`UnboundLocalError` either way.) -/
inductive PyFault
  | unboundLocalInHandler
  | unboundLocalInFinally
deriving DecidableEq

/-- Result of a call in the embedded fragment: a normal return, carrying a
possibly absent response (represented by its status code), or an escaping
Python exception. -/
inductive Res
  | ret (resp : Option Nat)
  | exn (f : PyFault)
deriving DecidableEq

/-- `Response.raise_for_status` raises `HTTPError` exactly for
4xx client-error and 5xx server-error statuses. -/
def raise_for_status_raises (s : Nat) : Bool :=
  decide (400 ≤ s) && decide (s < 600)

/-- Observable behaviour of one call to `Request.make_get_request`
(utils.py lines 80-117): what it returns or raises, whether a response
object was obtained from `requests.get`, and whether that response was
closed in the `finally` block before returning. -/
structure AttemptTrace where
  result : Res
  obtained : Bool
  closed : Bool
deriving DecidableEq

/-- `Request.make_get_request`, translated branch by branch.

* `response s`: `requests.get` returned, binding the local `response`.
  If `raise_for_status` raises (4xx/5xx), the `(ConnectionError, HTTPError)`
  handler runs with `response` bound and only prints; either way the
  `finally` block closes the response iff `not self.stream`, and the
  response (status `s`) is returned.
* `timeout`: the `Timeout` handler assigns `response = None`; `finally`
  skips the close (`response is not None` is false) and `None` is returned.
* `connectionError`: `requests.get` raised before assigning `response`, and
  the handler evaluates `response.status_code` on the unbound local —
  `UnboundLocalError` (the `finally` block then faults on the same unbound
  local; no close happens, nothing is returned).
* `tooManyRedirects` / `sslError` / `otherError`: the matching handler only
  prints, then the `finally` block evaluates `response is not None` on the
  unbound local — `UnboundLocalError` escapes; no close, no return. -/
def make_get_request (stream : Bool) (net : NetResult) : AttemptTrace :=
  match net with
  | .response s =>
      if raise_for_status_raises s then
        { result := .ret (some s), obtained := true, closed := !stream }
      else
        { result := .ret (some s), obtained := true, closed := !stream }
  | .timeout =>
      { result := .ret none, obtained := false, closed := false }
  | .connectionError =>
      { result := .exn .unboundLocalInHandler, obtained := false, closed := false }
  | .tooManyRedirects =>
      { result := .exn .unboundLocalInFinally, obtained := false, closed := false }
  | .sslError =>
      { result := .exn .unboundLocalInFinally, obtained := false, closed := false }
  | .otherError =>
      { result := .exn .unboundLocalInFinally, obtained := false, closed := false }

/-- `self.status = response.status_code if response is not None else None`,
followed by the Python test `self.status in self.retry_status`
(`None in [500, 503, 504]` is false). -/
def in_retry_status (status : Option Nat) : Bool :=
  match status with
  | some s => decide (s ∈ retry_status)
  | none => false

/-- Observable behaviour of `Request.handle_get_request`: its result,
the number of physical attempts made, the number of `time.sleep` calls,
and the final value of `self.attempt`. -/
structure SessionTrace where
  result : Res
  attempts : Nat
  sleeps : Nat
  finalAttempt : Nat
deriving DecidableEq

/-- One execution of the body of the `while self.status != requests.codes.ok`
loop of `Request.handle_get_request` (utils.py lines 126-141), from physical
attempt index `k` with `self.attempt = attempt`.

The `while` guard is true on first entry (`self.status` is initialised to
`0 ≠ 200` in `__init__`) and on every re-entry: only a retryable status
(500/503/504, all `≠ 200`) reaches the sleep-and-repeat path.  So the loop
always exits through one of its `break`s (or an escaping exception), never
through the guard, and the guard needs no separate model.

Body: run `make_get_request` (an escaping exception propagates out of the
loop); set `self.status` from the response; if the status is not retryable,
`break` and return the response; otherwise increment `self.attempt`, `break`
(returning the response) once `self.attempt > self.retry_max`, else
`time.sleep(self.retry_sleep)` and run the body again. -/
def handle_from (stream : Bool) (net : Nat → NetResult) (k : Nat) (attempt : Nat) :
    SessionTrace :=
  match (make_get_request stream (net k)).result with
  | .exn f => { result := .exn f, attempts := 1, sleeps := 0, finalAttempt := attempt }
  | .ret resp =>
      if in_retry_status resp then
        if _h : attempt + 1 > retry_max then
          { result := .ret resp, attempts := 1, sleeps := 0, finalAttempt := attempt + 1 }
        else
          let rest := handle_from stream net (k + 1) (attempt + 1)
          { result := rest.result, attempts := rest.attempts + 1,
            sleeps := rest.sleeps + 1, finalAttempt := rest.finalAttempt }
      else
        { result := .ret resp, attempts := 1, sleeps := 0, finalAttempt := attempt }
termination_by retry_max + 1 - attempt
decreasing_by simp only [retry_max] at *; omega

/-- `Request.handle_get_request` as driven by `Request.__init__`:
`self.status = 0`, `self.attempt = 1`, then the loop runs to completion. -/
def handle_get_request (stream : Bool) (net : Nat → NetResult) : SessionTrace :=
  handle_from stream net 0 1

/-- The status value `handle_get_request` captures from one attempt:
the status code when `requests.get` produced a response object, absent
otherwise (a faulting attempt never reaches the status assignment and so
contributes no retryable status either). -/
def capturedStatus : NetResult → Option Nat
  | .response s => some s
  | _ => none

/-- Number of attempts whose captured status is retryable, among the `n`
physical attempts with indices `k, k + 1, ..., k + n - 1`. -/
def countRetry (net : Nat → NetResult) : Nat → Nat → Nat
  | _, 0 => 0
  | k, n + 1 =>
      (if in_retry_status (capturedStatus (net k)) then 1 else 0) + countRetry net (k + 1) n

/-! ### The `safe_print` lock model

`safe_print` (utils.py lines 172-183) is documented as "A thread safe print
function".  Its body is

    print_lock = Lock()
    with print_lock:
        print(*a, **b)

so the lock is a fresh local object allocated anew on every call, not a
process-wide lock created once at module load.  We model a call as a
sequence of atomic actions — acquire its lock, write the message characters
one by one, release its lock — and let a scheduler interleave two such
calls.  Locks are identified by `Nat`; two concurrent calls hold distinct
lock identities because each call allocates its own `Lock()`. -/

/-- An atomic action of a thread executing `safe_print`. -/
inductive PrintAction
  | acquire (l : Nat)
  | release (l : Nat)
  | write (c : Char)
deriving DecidableEq

/-- The action sequence of one `safe_print` call printing `msg`, using the
lock object `l` that the call itself allocated (`print_lock = Lock()`). -/
def safe_print_call (l : Nat) (msg : List Char) : List PrintAction :=
  PrintAction.acquire l :: (msg.map PrintAction.write ++ [PrintAction.release l])

/-- Shared state: the set of currently held locks and the console output. -/
structure ConsoleState where
  held : List Nat
  out : List Char
deriving DecidableEq

/-- Effect of one atomic action; `none` when the action is not enabled
(acquiring a held lock blocks, releasing an unheld lock is impossible). -/
def runAction (s : ConsoleState) (a : PrintAction) : Option ConsoleState :=
  match a with
  | .acquire l => if l ∈ s.held then none else some { s with held := l :: s.held }
  | .release l => if l ∈ s.held then some { s with held := s.held.erase l } else none
  | .write c => some { s with out := s.out ++ [c] }

/-- Run two threads under a schedule (`true` picks the first thread).
Returns the final state when the schedule runs both threads to completion,
`none` when it picks an exhausted or blocked thread. -/
def interleave (sched : List Bool) (t1 t2 : List PrintAction) (s : ConsoleState) :
    Option ConsoleState :=
  match sched, t1, t2 with
  | [], [], [] => some s
  | [], _, _ => none
  | true :: rest, a :: t1', _ =>
      match runAction s a with
      | some s' => interleave rest t1' t2 s'
      | none => none
  | false :: rest, _, a :: t2' =>
      match runAction s a with
      | some s' => interleave rest t1 t2' s'
      | none => none
  | _ :: _, _, _ => none

/-! ### Helper lemmas -/

/-- Invariant of the retry loop, by induction on the remaining headroom
`gas = retry_max + 1 - attempt` of the attempt counter: the body runs at
most `gas` times, sleeps strictly fewer times, the counter never exceeds
`retry_max + 1`, and the final counter is the entry counter plus the number
of attempts whose captured status was retryable. -/
theorem handle_from_invariant (stream : Bool) (net : Nat → NetResult) :
    ∀ gas k attempt, 1 ≤ gas → attempt + gas = retry_max + 1 →
      (handle_from stream net k attempt).attempts ≤ gas ∧
      (handle_from stream net k attempt).sleeps + 1 ≤ gas ∧
      (handle_from stream net k attempt).finalAttempt ≤ retry_max + 1 ∧
      (handle_from stream net k attempt).finalAttempt
        = attempt + countRetry net k (handle_from stream net k attempt).attempts := by
  intro gas
  induction gas with
  | zero => intro k attempt h1 _; omega
  | succ g ih =>
    intro k attempt _ hsum
    have hmax : retry_max = 3 := rfl
    cases hnk : net k with
    | response s =>
      by_cases hr : in_retry_status (some s) = true
      · by_cases hcap : attempt + 1 > retry_max
        · have hx : handle_from stream net k attempt
              = ⟨Res.ret (some s), 1, 0, attempt + 1⟩ := by
            rw [handle_from.eq_def]
            simp [make_get_request, hnk, hr, hcap]
          have hc : countRetry net k 1 = 1 := by
            simp [countRetry, hnk, capturedStatus, hr]
          rw [hx]; dsimp only; omega
        · have hx : handle_from stream net k attempt
              = ⟨(handle_from stream net (k + 1) (attempt + 1)).result,
                 (handle_from stream net (k + 1) (attempt + 1)).attempts + 1,
                 (handle_from stream net (k + 1) (attempt + 1)).sleeps + 1,
                 (handle_from stream net (k + 1) (attempt + 1)).finalAttempt⟩ := by
            conv_lhs => rw [handle_from.eq_def]
            simp [make_get_request, hnk, hr, hcap]
          have hrec := ih (k + 1) (attempt + 1) (by omega) (by omega)
          have hc : countRetry net k ((handle_from stream net (k + 1) (attempt + 1)).attempts + 1)
              = 1 + countRetry net (k + 1)
                  ((handle_from stream net (k + 1) (attempt + 1)).attempts) := by
            simp [countRetry, hnk, capturedStatus, hr]
          rw [hx]; dsimp only; omega
      · have hx : handle_from stream net k attempt
            = ⟨Res.ret (some s), 1, 0, attempt⟩ := by
          rw [handle_from.eq_def]
          simp [make_get_request, hnk, hr]
        have hc : countRetry net k 1 = 0 := by
          simp [countRetry, hnk, capturedStatus, hr]
        rw [hx]; dsimp only; omega
    | timeout =>
      have hx : handle_from stream net k attempt
          = ⟨Res.ret none, 1, 0, attempt⟩ := by
        rw [handle_from.eq_def]
        simp [make_get_request, hnk, in_retry_status]
      have hc : countRetry net k 1 = 0 := by
        simp [countRetry, hnk, capturedStatus, in_retry_status]
      rw [hx]; dsimp only; omega
    | connectionError =>
      have hx : handle_from stream net k attempt
          = ⟨Res.exn PyFault.unboundLocalInHandler, 1, 0, attempt⟩ := by
        rw [handle_from.eq_def]
        simp [make_get_request, hnk]
      have hc : countRetry net k 1 = 0 := by
        simp [countRetry, hnk, capturedStatus, in_retry_status]
      rw [hx]; dsimp only; omega
    | tooManyRedirects =>
      have hx : handle_from stream net k attempt
          = ⟨Res.exn PyFault.unboundLocalInFinally, 1, 0, attempt⟩ := by
        rw [handle_from.eq_def]
        simp [make_get_request, hnk]
      have hc : countRetry net k 1 = 0 := by
        simp [countRetry, hnk, capturedStatus, in_retry_status]
      rw [hx]; dsimp only; omega
    | sslError =>
      have hx : handle_from stream net k attempt
          = ⟨Res.exn PyFault.unboundLocalInFinally, 1, 0, attempt⟩ := by
        rw [handle_from.eq_def]
        simp [make_get_request, hnk]
      have hc : countRetry net k 1 = 0 := by
        simp [countRetry, hnk, capturedStatus, in_retry_status]
      rw [hx]; dsimp only; omega
    | otherError =>
      have hx : handle_from stream net k attempt
          = ⟨Res.exn PyFault.unboundLocalInFinally, 1, 0, attempt⟩ := by
        rw [handle_from.eq_def]
        simp [make_get_request, hnk]
      have hc : countRetry net k 1 = 0 := by
        simp [countRetry, hnk, capturedStatus, in_retry_status]
      rw [hx]; dsimp only; omega

/-! ### Claim theorems -/

/-- Claim C1, counterexample: with every attempt yielding the retryable
status 503, the session makes 3 physical attempts, not the 4 the claim
states. -/
theorem persistent_retryable_makes_three_attempts_not_four :
    (handle_get_request false (fun _ => NetResult.response 503)).attempts = 3 ∧
      (handle_get_request false (fun _ => NetResult.response 503)).attempts ≠ 4 := by
  have h : handle_get_request false (fun _ => NetResult.response 503)
      = ⟨Res.ret (some 503), 3, 2, 4⟩ := by
    simp [handle_get_request, handle_from, make_get_request, in_retry_status, retry_status,
      retry_max]
  rw [h]
  exact ⟨rfl, by decide⟩

/-- Claim C1, as amended: for every URL whose every physical attempt yields
a retryable status (500/503/504), the session makes exactly 3 physical
attempts in total (1 initial plus 2 retries), sleeps the fixed 2.5-second
retry delay between consecutive attempts (2 sleeps), and returns the last
(third) attempt's result; the attempt counter ends at 4. -/
theorem persistent_retryable_three_attempts_two_sleeps (stream : Bool)
    (net : Nat → NetResult) (s0 s1 s2 : Nat)
    (h0 : net 0 = NetResult.response s0) (hr0 : s0 ∈ retry_status)
    (h1 : net 1 = NetResult.response s1) (hr1 : s1 ∈ retry_status)
    (h2 : net 2 = NetResult.response s2) (hr2 : s2 ∈ retry_status) :
    handle_get_request stream net = ⟨Res.ret (some s2), 3, 2, 4⟩ ∧ retry_sleep = 5 / 2 := by
  refine ⟨?_, rfl⟩
  simp [handle_get_request, handle_from, make_get_request, h0, h1, h2, in_retry_status,
    hr0, hr1, hr2, retry_max]

/-- Witness for the amended claim C1, at the session whose every attempt
returns status 503. -/
theorem persistent_retryable_three_attempts_two_sleeps_witness :
    handle_get_request false (fun _ => NetResult.response 503)
        = ⟨Res.ret (some 503), 3, 2, 4⟩ ∧ retry_sleep = 5 / 2 :=
  persistent_retryable_three_attempts_two_sleeps false (fun _ => NetResult.response 503)
    503 503 503 rfl (by decide) rfl (by decide) rfl (by decide)

/-- Claim C2: `safe_print` allocates a fresh `Lock()` on every call instead
of one process-wide lock, so two concurrent calls hold distinct locks and a
schedule exists that interleaves their messages character by character
(output `acbd` from messages `ab` and `cd`); under the single shared lock
the claim describes, the very same schedule is blocked. -/
theorem fresh_lock_per_call_allows_interleaving :
    interleave [true, true, false, false, true, true, false, false]
        (safe_print_call 0 ['a', 'b']) (safe_print_call 1 ['c', 'd']) ⟨[], []⟩
      = some ⟨[], ['a', 'c', 'b', 'd']⟩ ∧
    interleave [true, true, false, false, true, true, false, false]
        (safe_print_call 0 ['a', 'b']) (safe_print_call 0 ['c', 'd']) ⟨[], []⟩
      = none := by
  exact ⟨by decide, by decide⟩

/-- Claim C3: a pure connection error (no response object) on the first
attempt is not absorbed — the handler reads `response.status_code` on the
unbound local `response` and an `UnboundLocalError` escapes the session
after a single attempt, instead of the session returning a value. -/
theorem pure_connection_error_escapes_session :
    handle_get_request false (fun _ => NetResult.connectionError)
      = ⟨Res.exn PyFault.unboundLocalInHandler, 1, 0, 1⟩ := by
  simp [handle_get_request, handle_from, make_get_request]

/-- Claim C4: a timeout on the first attempt does capture an absent status
and terminates after exactly one attempt with no retry and no delay, but a
TLS verification failure does not — the `finally` block faults on the
unbound local `response` and an `UnboundLocalError` escapes the session
(after one physical attempt, with no retry and no sleep). -/
theorem timeout_absent_but_ssl_failure_escapes :
    handle_get_request false (fun _ => NetResult.timeout) = ⟨Res.ret none, 1, 0, 1⟩ ∧
      handle_get_request false (fun _ => NetResult.sslError)
        = ⟨Res.exn PyFault.unboundLocalInFinally, 1, 0, 1⟩ := by
  constructor <;> simp [handle_get_request, handle_from, make_get_request, in_retry_status]

/-- Claim C5: a first-attempt status that is not retryable (404, and also
the non-200 2xx codes such as 201 or 204, which are not treated as success)
ends the session after exactly one physical attempt, with no retry and no
sleep, and that attempt's response is returned as-is. -/
theorem non_retryable_status_single_attempt (stream : Bool) (net : Nat → NetResult)
    (s : Nat) (h0 : net 0 = NetResult.response s) (hnr : s ∉ retry_status)
    (_h200 : s ≠ 200) :
    handle_get_request stream net = ⟨Res.ret (some s), 1, 0, 1⟩ := by
  simp [handle_get_request, handle_from, make_get_request, h0, in_retry_status, hnr]

/-- Witness for claim C5, at a session whose first attempt returns 404. -/
theorem non_retryable_status_single_attempt_witness :
    handle_get_request false (fun _ => NetResult.response 404)
      = ⟨Res.ret (some 404), 1, 0, 1⟩ :=
  non_retryable_status_single_attempt false (fun _ => NetResult.response 404) 404 rfl
    (by decide) (by decide)

/-- Claim C6: first attempt 503, second attempt 200 — exactly 2 physical
attempts, exactly one 2.5-second sleep between them, and the returned
result is the second attempt's 200 response. -/
theorem retryable_then_success_two_attempts (stream : Bool) (net : Nat → NetResult)
    (h0 : net 0 = NetResult.response 503) (h1 : net 1 = NetResult.response 200) :
    handle_get_request stream net = ⟨Res.ret (some 200), 2, 1, 2⟩ ∧ retry_sleep = 5 / 2 := by
  refine ⟨?_, rfl⟩
  simp [handle_get_request, handle_from, make_get_request, h0, h1, in_retry_status,
    retry_status, retry_max]

/-- Witness for claim C6, at the session yielding 503 then 200. -/
theorem retryable_then_success_two_attempts_witness :
    handle_get_request false
        (fun k => if k = 0 then NetResult.response 503 else NetResult.response 200)
      = ⟨Res.ret (some 200), 2, 1, 2⟩ ∧ retry_sleep = 5 / 2 :=
  retryable_then_success_two_attempts false
    (fun k => if k = 0 then NetResult.response 503 else NetResult.response 200) rfl rfl

/-- Claim C7: a first attempt returning status 200 ends the session after
exactly one physical attempt, with no sleep, and that response is the
session's result. -/
theorem first_attempt_ok_single_attempt (stream : Bool) (net : Nat → NetResult)
    (h : net 0 = NetResult.response 200) :
    handle_get_request stream net = ⟨Res.ret (some 200), 1, 0, 1⟩ := by
  simp [handle_get_request, handle_from, make_get_request, h, in_retry_status, retry_status]

/-- Witness for claim C7, at a session whose first attempt returns 200. -/
theorem first_attempt_ok_single_attempt_witness :
    handle_get_request false (fun _ => NetResult.response 200)
      = ⟨Res.ret (some 200), 1, 0, 1⟩ :=
  first_attempt_ok_single_attempt false (fun _ => NetResult.response 200) rfl

/-- Claim C8: with `stream = false`, an attempt closes its response object
exactly when one was obtained, whatever the outcome (success or HTTP error
status); with `stream = true`, no attempt ever closes its response, so a
successful streaming response stays open for the caller. -/
theorem close_discipline (net : NetResult) :
    (make_get_request false net).closed = (make_get_request false net).obtained ∧
      (make_get_request true net).closed = false := by
  cases net <;> simp [make_get_request]

/-- Claim C9: for a too-many-redirects, TLS/SSL, or other transport error
the local `response` is never assigned and the `finally` cleanup faults
with an unbound-local error instead of returning an absent response; only
the timeout branch actually assigns and returns the absent value. -/
theorem only_timeout_branch_assigns_absent_response (stream : Bool) :
    (make_get_request stream NetResult.tooManyRedirects).result
        = Res.exn PyFault.unboundLocalInFinally ∧
      (make_get_request stream NetResult.sslError).result
        = Res.exn PyFault.unboundLocalInFinally ∧
      (make_get_request stream NetResult.otherError).result
        = Res.exn PyFault.unboundLocalInFinally ∧
      (make_get_request stream NetResult.timeout).result = Res.ret none :=
  ⟨rfl, rfl, rfl, rfl⟩

/-- Claim C10: for every outcome sequence, the attempt counter (started at
1 by `__init__`) ends at 1 plus the number of attempts whose captured
status was retryable — it is incremented exactly after those attempts —
and never exceeds 4; the loop body runs at most 3 times (at most 3 physical
attempts) and at most 2 retry delays are slept. -/
theorem attempt_counter_bounds (stream : Bool) (net : Nat → NetResult) :
    (handle_get_request stream net).attempts ≤ 3 ∧
      (handle_get_request stream net).sleeps ≤ 2 ∧
      (handle_get_request stream net).finalAttempt ≤ 4 ∧
      (handle_get_request stream net).finalAttempt
        = 1 + countRetry net 0 (handle_get_request stream net).attempts := by
  have h := handle_from_invariant stream net 3 0 1 (by decide) (by decide)
  unfold handle_get_request at *
  have hmax : retry_max = 3 := rfl
  omega

end FtbDownloader
